import Mathlib

/-!
Shallow embedding of `src/main.py` of the bite-search-api service, a
FastAPI aggregator that forwards a query to the Google Custom Search API
and filters the results by concurrently validating each candidate's image
URL through the images.weserv.nl proxy.

Network effects are modelled by explicit oracles:
* `ProbeOutcome` is the result of one HEAD request against the proxy —
  either an exception (connection error, timeout) or a response carrying
  a status code and the optional `content-type` header value;
* `Env` packages the probe oracle, whether the `asyncio.gather`
  wait-for-all step itself raises, and which individual tasks deliver an
  exception object instead of a boolean (`return_exceptions=True`);
* `UpstreamOutcome` is the result of the single `requests.get` call to
  the search provider.
The handler returns, besides its HTTP-level result, the number of image
validation probes it issues.
-/

/-- The `SearchResult` pydantic model (main.py lines 11-16). -/
structure SearchResult where
  title : String
  url : String
  image : String
  source : String
  snippet : Option String
deriving Repr, DecidableEq

/-- The `SearchResponse` pydantic model (main.py lines 18-21). -/
structure SearchResponse where
  results : List SearchResult
  total_results : Nat
  search_time : String
deriving Repr, DecidableEq

/-- Outcome of the HEAD probe against the weserv proxy: an exception
(covers connection errors and the 5-second timeout) or a response with
its status code and optional `content-type` header value. -/
inductive ProbeOutcome where
  | exn : ProbeOutcome
  | response (status : Nat) (contentType : Option String) : ProbeOutcome
deriving Repr, DecidableEq

/-- The proxy URL built at main.py line 39. -/
def weservProxyUrl (image_url : String) : String :=
  "https://images.weserv.nl/?url=" ++ image_url

/-- Python `str.lower()` on the code points of a string (ASCII-faithful;
every string the service handles is ASCII). -/
def pyLower (s : String) : List Char :=
  s.data.map Char.toLower

/-- Python `str.startswith(p)` on code points. -/
def pyStartsWith (s : List Char) (p : String) : Bool :=
  p.data.isPrefixOf s

/-- Embeds `validate_image_url` (main.py lines 33-50), given a probe
oracle.  Returns the boolean outcome together with the number of network
probes issued (0 or 1).  The Python code returns `False` on an empty URL
before touching the network; otherwise it HEADs the proxy URL, and
returns `True` only when the status is exactly 200 and the lowercased
`content-type` header (defaulting to `""`) starts with `"image/"`; every
exception is caught and collapsed to `False`. -/
def validate_image_url (probe : String → ProbeOutcome) (image_url : String) :
    Bool × Nat :=
  if image_url = "" then (false, 0)
  else
    match probe (weservProxyUrl image_url) with
    | ProbeOutcome.exn => (false, 1)
    | ProbeOutcome.response status ct =>
        if status = 200 then (pyStartsWith (pyLower (ct.getD "")) "image/", 1)
        else (false, 1)

/-- Characters allowed in a URL scheme (`scheme_chars` in
`urllib.parse`): letters, digits, `+`, `-`, `.`. -/
def isSchemeChar (c : Char) : Bool :=
  c.isAlpha || c.isDigit || c == '+' || c == '-' || c == '.'

/-- The scheme-splitting step of `urllib.parse.urlsplit`: when the URL
has a colon at a positive position preceded only by scheme characters
starting with a letter, everything before the colon is the scheme; this
returns the remainder after the colon (or the whole URL when no scheme
is recognised). -/
def dropScheme (url : List Char) : List Char :=
  match url.span (fun c => c != ':') with
  | (pre, rest) =>
    match rest with
    | ':' :: tail =>
        if pre ≠ [] ∧ (pre.headD ' ').isAlpha ∧ pre.all isSchemeChar then tail
        else url
    | _ => url

/-- The netloc extraction of `urllib.parse.urlsplit`: a netloc is present
only when (after the scheme) the URL starts with `//`, and extends up to
the next `/`, `?` or `#`.  `urlsplit` raises `ValueError` exactly on a
netloc containing an unmatched square bracket; any other input parses
without raising (the NFKC re-validation of newer CPython never fires on
ASCII input and is not modelled). -/
def urlparseNetloc (url : List Char) : Except Unit (List Char) :=
  match dropScheme url with
  | '/' :: '/' :: rest =>
      let netloc := rest.takeWhile (fun c => c != '/' && c != '?' && c != '#')
      if (netloc.contains '[' && !netloc.contains ']') ||
         (netloc.contains ']' && !netloc.contains '[') then
        Except.error ()
      else
        Except.ok netloc
  | _ => Except.ok []

/-- Embeds `get_domain_name` (main.py lines 53-63): lowercase the parsed
netloc, strip one leading `"www."`, and return `"unknown"` only when
`urlparse` raises (the bare `except` at line 62). -/
def get_domain_name (url : String) : String :=
  match urlparseNetloc url.data with
  | Except.error _ => "unknown"
  | Except.ok netloc =>
      let domain := netloc.map Char.toLower
      if pyStartsWith domain "www." then String.mk (domain.drop 4)
      else String.mk domain

/-- One element of the upstream `items[]` array.  Absent JSON keys are
`none`; the code's `item.get(k, "")` becomes `Option.getD _ ""`.  The
nested `item.get("image", {}).get("contextLink", "")` is flattened into
one optional field, absent when either the `image` object or its
`contextLink` key is missing. -/
structure UpstreamItem where
  title : Option String
  snippet : Option String
  displayLink : Option String
  link : Option String
  contextLink : Option String
deriving Repr, DecidableEq

/-- The upstream `searchInformation` object.  `totalResults` arrives as a
decimal string and is consumed only through `int(...)`, so it is modelled
as the parsed number; `searchTime` is modelled as the string `str(...)`
produces. -/
structure SearchInformation where
  searchTime : Option String
  totalResults : Option Nat
deriving Repr, DecidableEq

/-- The parsed upstream JSON body: `data.get("items", [])` and
`data.get("searchInformation", {})` (main.py lines 104-105). -/
structure UpstreamData where
  items : List UpstreamItem
  searchInformation : SearchInformation
deriving Repr, DecidableEq

/-- Outcome of the single `requests.get` call to the search endpoint
(main.py lines 92-101): a `requests.exceptions.RequestException`
(HTTP or network failure), some other exception (e.g. a JSON decode
error), or a parsed body. -/
inductive UpstreamOutcome where
  | requestError (msg : String)
  | otherError (msg : String)
  | success (data : UpstreamData)
deriving Repr, DecidableEq

/-- The FastAPI `HTTPException`, restricted to the fields the code sets. -/
structure HTTPError where
  status_code : Nat
  detail : String
deriving Repr, DecidableEq

/-- What `asyncio.gather(..., return_exceptions=True)` delivers for one
validation task: the task's boolean, or an exception object. -/
inductive TaskOutcome where
  | val (b : Bool)
  | exn
deriving Repr, DecidableEq

/-- The `is_valid is True` test at main.py line 157: only the boolean
`True` passes; `False` and exception objects do not. -/
def TaskOutcome.isValidTrue : TaskOutcome → Bool
  | TaskOutcome.val true => true
  | _ => false

/-- The filtering loop of the batch-validation step (main.py lines
154-158): zip candidates with delivered outcomes and keep a candidate
exactly when its outcome `is True`. -/
def batch_validate (results : List SearchResult) (outcomes : List TaskOutcome) :
    List SearchResult :=
  ((results.zip outcomes).filter (fun p => p.2.isValidTrue)).map Prod.fst

/-- The per-item extraction of main.py lines 118-147: default absent keys
to `""`, skip the item (`continue`) when the context link or the direct
image link is missing, and otherwise build the `SearchResult` with the
domain derived from the recipe URL.  (`display_link` is extracted by the
code but never used.) -/
def buildResult (item : UpstreamItem) : Option SearchResult :=
  let title := item.title.getD ""
  let snippet := item.snippet.getD ""
  let recipe_url := item.contextLink.getD ""
  let google_image := item.link.getD ""
  if recipe_url = "" ∨ google_image = "" then none
  else some { title := title, url := recipe_url, image := google_image,
              source := get_domain_name recipe_url, snippet := some snippet }

/-- The request-scoped effect environment of one `/search` call:
the probe oracle, whether the `asyncio.gather` wait step itself raises
(main.py line 151 vs 162), and which task indices deliver an exception
object instead of their boolean. -/
structure Env where
  probe : String → ProbeOutcome
  gatherRaises : Bool
  taskDeliversExn : Nat → Bool

/-- The candidate list built by the extraction loop (main.py lines
115-144): one `SearchResult` per item that has both links. -/
def candidatesOf (data : UpstreamData) : List SearchResult :=
  data.items.filterMap buildResult

/-- The outcomes `asyncio.gather(*validation_tasks,
return_exceptions=True)` delivers (main.py line 151): task `i` yields an
exception object when the environment says so, and otherwise the boolean
`validate_image_url` computes for candidate `i`'s image. -/
def outcomesOf (env : Env) (data : UpstreamData) : List TaskOutcome :=
  (candidatesOf data).enum.map (fun p =>
    if env.taskDeliversExn p.1 then TaskOutcome.exn
    else TaskOutcome.val (validate_image_url env.probe p.2.image).1)

/-- The value bound to `results` after the try/except around the wait
step (main.py lines 150-164): the filtered list normally, the unfiltered
candidate list when the wait step itself raises. -/
def finalResults (env : Env) (data : UpstreamData) : List SearchResult :=
  if env.gatherRaises then candidatesOf data
  else batch_validate (candidatesOf data) (outcomesOf env data)

/-- Number of validation probes the request issues: one per scheduled
task (every candidate has a non-empty image URL, but the count is derived
from `validate_image_url` itself). -/
def probesOf (env : Env) (data : UpstreamData) : Nat :=
  ((candidatesOf data).map (fun c => (validate_image_url env.probe c.image).2)).sum

/-- The success path of the handler (main.py lines 104-170): on an empty
item list return the empty envelope at once (no tasks are created, so no
probes are issued); otherwise build candidates, validate, and assemble
the envelope with `total_results = int(search_info.get("totalResults",
len(results)))` and `search_time = str(search_info.get("searchTime",
"0"))`, where `results` is the post-try/except list. -/
def handleSuccess (env : Env) (data : UpstreamData) :
    Except HTTPError SearchResponse × Nat :=
  if data.items = [] then
    (Except.ok { results := [], total_results := 0,
                 search_time := data.searchInformation.searchTime.getD "0" }, 0)
  else
    (Except.ok { results := finalResults env data,
                 total_results := data.searchInformation.totalResults.getD
                   (finalResults env data).length,
                 search_time := data.searchInformation.searchTime.getD "0" },
     probesOf env data)

/-- Embeds the `/search` handler `search_recipes` (main.py lines 65-170)
with the two network boundaries abstracted: the single upstream request's
outcome and the probe environment.  A `RequestException` maps to a 500
`HTTPException` with detail `"Google Search API error: ..."`, any other
exception in that block to `"Search error: ..."`; the upstream call
appears exactly once, so no branch retries it. -/
def search_recipes (env : Env) (upstream : UpstreamOutcome) :
    Except HTTPError SearchResponse × Nat :=
  match upstream with
  | UpstreamOutcome.requestError e =>
      (Except.error { status_code := 500,
                      detail := "Google Search API error: " ++ e }, 0)
  | UpstreamOutcome.otherError e =>
      (Except.error { status_code := 500,
                      detail := "Search error: " ++ e }, 0)
  | UpstreamOutcome.success data => handleSuccess env data

/-- Specification-side filter for the batch-validation claim, written
from the spec's words: produce the candidates whose outcome was `true`,
in their original order, treating per-task errors as not valid. -/
def keepValidSpec : List SearchResult → List TaskOutcome → List SearchResult
  | [], _ => []
  | _ :: _, [] => []
  | c :: cs, TaskOutcome.val true :: os => c :: keepValidSpec cs os
  | _ :: cs, TaskOutcome.val false :: os => keepValidSpec cs os
  | _ :: cs, TaskOutcome.exn :: os => keepValidSpec cs os

theorem keepValidSpec_sublist (cs : List SearchResult) (os : List TaskOutcome) :
    (keepValidSpec cs os).Sublist cs := by
  induction cs generalizing os with
  | nil => cases os <;> simp [keepValidSpec]
  | cons c cs ih =>
    cases os with
    | nil => simp [keepValidSpec]
    | cons o os =>
      cases o with
      | val b =>
        cases b
        · exact List.Sublist.cons c (ih os)
        · exact List.Sublist.cons₂ c (ih os)
      | exn => exact List.Sublist.cons c (ih os)

theorem batch_validate_eq_keepValidSpec (cs : List SearchResult)
    (os : List TaskOutcome) :
    batch_validate cs os = keepValidSpec cs os := by
  induction cs generalizing os with
  | nil => cases os <;> rfl
  | cons c cs ih =>
    cases os with
    | nil => rfl
    | cons o os =>
      cases o with
      | val b =>
        cases b <;>
          simp [batch_validate, keepValidSpec, TaskOutcome.isValidTrue,
            List.filter_cons] <;> simpa [batch_validate] using ih os
      | exn =>
        simp [batch_validate, keepValidSpec, TaskOutcome.isValidTrue,
          List.filter_cons]
        simpa [batch_validate] using ih os

/-- C1: the batch-validation step returns exactly the candidates whose
delivered outcome was the boolean `true`, in their original relative
order — it equals the specification-side recursion `keepValidSpec` (which
treats per-task errors as not valid) and is a sublist of the input — and
on three candidates whose outcomes are `[true, false, true]` it returns
the first and the third, in that order. -/
theorem C1_batch_validation_filters (cs : List SearchResult)
    (os : List TaskOutcome) :
    batch_validate cs os = keepValidSpec cs os ∧
    (batch_validate cs os).Sublist cs ∧
    (∀ c1 c2 c3 : SearchResult,
      batch_validate [c1, c2, c3]
        [TaskOutcome.val true, TaskOutcome.val false, TaskOutcome.val true]
        = [c1, c3]) := by
  refine ⟨batch_validate_eq_keepValidSpec cs os, ?_, fun c1 c2 c3 => rfl⟩
  rw [batch_validate_eq_keepValidSpec]
  exact keepValidSpec_sublist cs os

/-- C2: for a non-empty URL the validator returns `true` iff the probe of
the proxy URL yields a response whose status is 200 (HTTP "OK") and whose
advertised content-type, lowercased, starts with `"image/"`; a probe
exception (network error, timeout) yields `false`.  The embedding returns
a boolean in every case, so no failure escapes the validator's boundary. -/
theorem C2_validator_true_iff (probe : String → ProbeOutcome) (url : String)
    (h : url ≠ "") :
    ((validate_image_url probe url).1 = true ↔
      ∃ status ct, probe (weservProxyUrl url) = ProbeOutcome.response status ct ∧
        status = 200 ∧ pyStartsWith (pyLower (ct.getD "")) "image/" = true) ∧
    (probe (weservProxyUrl url) = ProbeOutcome.exn →
      (validate_image_url probe url).1 = false) := by
  unfold validate_image_url
  rw [if_neg h]
  cases hp : probe (weservProxyUrl url) with
  | exn => simp
  | response s ct =>
    constructor
    · by_cases hs : s = 200 <;> simp [hs]
      constructor
      · intro hb
        exact ⟨200, ct, ⟨rfl, rfl⟩, rfl, hb⟩
      · rintro ⟨st, ct2, ⟨h1, h2⟩, hst, hb⟩
        subst h2
        exact hb
    · intro hx
      exact absurd hx (by simp)

theorem C2_validator_true_iff_witness :
    (validate_image_url
      (fun _ => ProbeOutcome.response 200 (some "image/jpeg"))
      "http://x/a.jpg").1 = true ∧
    (validate_image_url
      (fun _ => ProbeOutcome.response 404 (some "image/jpeg"))
      "http://x/a.jpg").1 = false ∧
    (validate_image_url
      (fun _ => ProbeOutcome.response 200 (some "text/html"))
      "http://x/a.jpg").1 = false ∧
    (validate_image_url (fun _ => ProbeOutcome.exn) "http://x/a.jpg").1
      = false := by
  refine ⟨?_, by decide, by decide, ?_⟩
  · exact (C2_validator_true_iff
      (fun _ => ProbeOutcome.response 200 (some "image/jpeg")) "http://x/a.jpg"
      (by decide)).1.mpr ⟨200, some "image/jpeg", rfl, rfl, by decide⟩
  · exact (C2_validator_true_iff (fun _ => ProbeOutcome.exn) "http://x/a.jpg"
      (by decide)).2 rfl

/-- C5: counterexample — on the spec's own example, the string
`"not a url"` parses without raising (with an empty netloc), so the
extractor returns `""`, not the sentinel `"unknown"`. -/
theorem C5_domain_counterexample :
    get_domain_name "not a url" = "" ∧
    get_domain_name "not a url" ≠ "unknown" := by
  constructor <;> decide

/-- C5 (amended): when `urlparse` succeeds, the extractor returns the
lowercase netloc with one leading `"www."` removed — the empty string,
not `"unknown"`, when the URL has no `//` authority; `"unknown"` is
returned when the parse raises (an unmatched bracket in the netloc).  In
particular `get_domain_name "https://www.example.com/x" = "example.com"`,
`get_domain_name "not a url" = ""`, and
`get_domain_name "http://[invalid/x" = "unknown"`. -/
theorem C5_domain_amended (url : String) (netloc : List Char)
    (h : urlparseNetloc url.data = Except.ok netloc) :
    get_domain_name url =
      (if pyStartsWith (netloc.map Char.toLower) "www."
       then String.mk ((netloc.map Char.toLower).drop 4)
       else String.mk (netloc.map Char.toLower)) ∧
    get_domain_name "https://www.example.com/x" = "example.com" ∧
    get_domain_name "not a url" = "" ∧
    get_domain_name "http://[invalid/x" = "unknown" := by
  refine ⟨?_, by decide, by decide, by decide⟩
  unfold get_domain_name
  rw [h]

theorem C5_domain_amended_witness :
    get_domain_name "https://www.example.com/x" = "example.com" :=
  (C5_domain_amended "https://www.example.com/x" "www.example.com".data
    (by rfl)).2.1

/-- C6: an empty image URL resolves to `false` with zero network probes
issued, whatever the network would answer. -/
theorem C6_empty_url_no_probe (probe : String → ProbeOutcome) :
    validate_image_url probe "" = (false, 0) := rfl

/-- C10: the validator accepts only status exactly 200 — a response with
any other status (e.g. 204, or any non-200 success status) yields
`false` even when the content-type starts with `"image/"`. -/
theorem C10_requires_status_200 (probe : String → ProbeOutcome)
    (url : String) (status : Nat) (ct : Option String)
    (h1 : url ≠ "")
    (h2 : probe (weservProxyUrl url) = ProbeOutcome.response status ct)
    (h3 : status ≠ 200) :
    (validate_image_url probe url).1 = false := by
  unfold validate_image_url
  rw [if_neg h1, h2]
  simp [h3]

theorem C10_requires_status_200_witness :
    (validate_image_url
      (fun _ => ProbeOutcome.response 204 (some "image/png"))
      "http://x/a.png").1 = false :=
  C10_requires_status_200
    (fun _ => ProbeOutcome.response 204 (some "image/png"))
    "http://x/a.png" 204 (some "image/png") (by decide) rfl (by decide)

/-- C3: when the item list is non-empty and upstream reports a
total-results count and a search time, the envelope carries exactly the
upstream count and the upstream time — independently of how many
candidates survive validation — while the results array alone reflects
the post-validation filtering. -/
theorem C3_envelope_upstream_totals (env : Env) (data : UpstreamData)
    (n : Nat) (t : String)
    (h1 : data.items ≠ [])
    (h2 : data.searchInformation.totalResults = some n)
    (h3 : data.searchInformation.searchTime = some t) :
    ∃ r : SearchResponse,
      (search_recipes env (UpstreamOutcome.success data)).1 = Except.ok r ∧
      r.total_results = n ∧
      r.search_time = t ∧
      r.results = finalResults env data ∧
      (env.gatherRaises = false →
        r.results = batch_validate (candidatesOf data) (outcomesOf env data)) := by
  refine ⟨{ results := finalResults env data,
            total_results := data.searchInformation.totalResults.getD
              (finalResults env data).length,
            search_time := data.searchInformation.searchTime.getD "0" },
          ?_, ?_, ?_, rfl, ?_⟩
  · show (handleSuccess env data).1 = _
    unfold handleSuccess
    rw [if_neg h1]
  · simp [h2]
  · simp [h3]
  · intro hg
    simp [finalResults, hg]

theorem C3_envelope_upstream_totals_witness :
    ∃ r : SearchResponse,
      (search_recipes
        { probe := fun _ => ProbeOutcome.response 404 none,
          gatherRaises := false, taskDeliversExn := fun _ => false }
        (UpstreamOutcome.success
          { items := [{ title := some "Choc", snippet := none,
                        displayLink := none,
                        link := some "http://img.example/a.jpg",
                        contextLink := some "http://site.example/x" }],
            searchInformation :=
              { searchTime := some "0.5", totalResults := some 123 } })).1
        = Except.ok r ∧
      r.total_results = 123 ∧
      r.search_time = "0.5" ∧
      r.results = finalResults
        { probe := fun _ => ProbeOutcome.response 404 none,
          gatherRaises := false, taskDeliversExn := fun _ => false }
        { items := [{ title := some "Choc", snippet := none,
                      displayLink := none,
                      link := some "http://img.example/a.jpg",
                      contextLink := some "http://site.example/x" }],
          searchInformation :=
            { searchTime := some "0.5", totalResults := some 123 } } ∧
      (({ probe := fun _ => ProbeOutcome.response 404 none,
          gatherRaises := false, taskDeliversExn := fun _ => false } : Env).gatherRaises
          = false →
        r.results = batch_validate
          (candidatesOf
            { items := [{ title := some "Choc", snippet := none,
                          displayLink := none,
                          link := some "http://img.example/a.jpg",
                          contextLink := some "http://site.example/x" }],
              searchInformation :=
                { searchTime := some "0.5", totalResults := some 123 } })
          (outcomesOf
            { probe := fun _ => ProbeOutcome.response 404 none,
              gatherRaises := false, taskDeliversExn := fun _ => false }
            { items := [{ title := some "Choc", snippet := none,
                          displayLink := none,
                          link := some "http://img.example/a.jpg",
                          contextLink := some "http://site.example/x" }],
              searchInformation :=
                { searchTime := some "0.5", totalResults := some 123 } })) :=
  C3_envelope_upstream_totals _ _ 123 "0.5" (List.cons_ne_nil _ _) rfl rfl

/-- C4: if the `asyncio.gather` wait-for-all step itself raises, the
handler returns every built candidate unfiltered, not an empty list. -/
theorem C4_gather_raises_fallback (env : Env) (data : UpstreamData)
    (h1 : data.items ≠ []) (h2 : env.gatherRaises = true) :
    ∃ r : SearchResponse,
      (search_recipes env (UpstreamOutcome.success data)).1 = Except.ok r ∧
      r.results = candidatesOf data := by
  refine ⟨{ results := finalResults env data,
            total_results := data.searchInformation.totalResults.getD
              (finalResults env data).length,
            search_time := data.searchInformation.searchTime.getD "0" },
          ?_, ?_⟩
  · show (handleSuccess env data).1 = _
    unfold handleSuccess
    rw [if_neg h1]
  · simp [finalResults, h2]

theorem C4_gather_raises_fallback_witness :
    ∃ r : SearchResponse,
      (search_recipes
        { probe := fun _ => ProbeOutcome.response 404 none,
          gatherRaises := true, taskDeliversExn := fun _ => false }
        (UpstreamOutcome.success
          { items := [{ title := some "Choc", snippet := none,
                        displayLink := none,
                        link := some "http://img.example/a.jpg",
                        contextLink := some "http://site.example/x" }],
            searchInformation :=
              { searchTime := some "0.5", totalResults := some 123 } })).1
        = Except.ok r ∧
      r.results = candidatesOf
        { items := [{ title := some "Choc", snippet := none,
                      displayLink := none,
                      link := some "http://img.example/a.jpg",
                      contextLink := some "http://site.example/x" }],
          searchInformation :=
            { searchTime := some "0.5", totalResults := some 123 } } :=
  C4_gather_raises_fallback _ _ (List.cons_ne_nil _ _) rfl

/-- C7: on an empty upstream item list the handler returns the empty
envelope at once — empty results, total 0, the upstream search time —
and issues zero validation probes. -/
theorem C7_empty_items_no_probe (env : Env) (si : SearchInformation) :
    search_recipes env
      (UpstreamOutcome.success { items := [], searchInformation := si })
      = (Except.ok { results := [], total_results := 0,
                     search_time := si.searchTime.getD "0" }, 0) := rfl

/-- C8: a `RequestException` from the upstream search call maps to a 500
`HTTPException` whose detail carries the upstream error text, with no
probe issued; the generic exception branch likewise maps to a 500.  The
upstream call appears exactly once in the handler, so no branch retries
it. -/
theorem C8_upstream_error_500 (env : Env) (msg : String) :
    search_recipes env (UpstreamOutcome.requestError msg)
      = (Except.error { status_code := 500,
                        detail := "Google Search API error: " ++ msg }, 0) ∧
    search_recipes env (UpstreamOutcome.otherError msg)
      = (Except.error { status_code := 500,
                        detail := "Search error: " ++ msg }, 0) :=
  ⟨rfl, rfl⟩

/-- C9: with a non-empty item list and no upstream `totalResults` field,
the envelope's total defaults to the length of the very results array it
returns — the post-filter list on the normal path. -/
theorem C9_total_defaults_to_result_count (env : Env) (data : UpstreamData)
    (h1 : data.items ≠ [])
    (h2 : data.searchInformation.totalResults = none) :
    ∃ r : SearchResponse,
      (search_recipes env (UpstreamOutcome.success data)).1 = Except.ok r ∧
      r.total_results = r.results.length ∧
      (env.gatherRaises = false →
        r.results = batch_validate (candidatesOf data) (outcomesOf env data)) := by
  refine ⟨{ results := finalResults env data,
            total_results := data.searchInformation.totalResults.getD
              (finalResults env data).length,
            search_time := data.searchInformation.searchTime.getD "0" },
          ?_, ?_, ?_⟩
  · show (handleSuccess env data).1 = _
    unfold handleSuccess
    rw [if_neg h1]
  · simp [h2]
  · intro hg
    simp [finalResults, hg]

theorem C9_total_defaults_to_result_count_witness :
    ∃ r : SearchResponse,
      (search_recipes
        { probe := fun _ => ProbeOutcome.response 404 none,
          gatherRaises := false, taskDeliversExn := fun _ => false }
        (UpstreamOutcome.success
          { items := [{ title := some "Choc", snippet := none,
                        displayLink := none,
                        link := some "http://img.example/a.jpg",
                        contextLink := some "http://site.example/x" }],
            searchInformation :=
              { searchTime := none, totalResults := none } })).1
        = Except.ok r ∧
      r.total_results = r.results.length ∧
      (({ probe := fun _ => ProbeOutcome.response 404 none,
          gatherRaises := false, taskDeliversExn := fun _ => false } : Env).gatherRaises
          = false →
        r.results = batch_validate
          (candidatesOf
            { items := [{ title := some "Choc", snippet := none,
                          displayLink := none,
                          link := some "http://img.example/a.jpg",
                          contextLink := some "http://site.example/x" }],
              searchInformation := { searchTime := none, totalResults := none } })
          (outcomesOf
            { probe := fun _ => ProbeOutcome.response 404 none,
              gatherRaises := false, taskDeliversExn := fun _ => false }
            { items := [{ title := some "Choc", snippet := none,
                          displayLink := none,
                          link := some "http://img.example/a.jpg",
                          contextLink := some "http://site.example/x" }],
              searchInformation :=
                { searchTime := none, totalResults := none } })) :=
  C9_total_defaults_to_result_count _ _ (List.cons_ne_nil _ _) rfl
